import Mathlib

/-!
Verification of the clicky iPod-4g emulator's device layer: a shallow
embedding of the HD66753 LCD controller (src/devices/hd66753.rs) and the
PP5020 EIDE storage controller shim (src/devices/platform/pp/eide.rs),
with theorems checking the natural-language specification's claims about
them.  Machine integers are modelled as `Nat` with explicit masking /
modulus where the Rust code wraps; fallible operations return
`Except MemException`; `&mut self` methods become explicit state passing
(result, new state).
-/

namespace Clicky

/-- Log severity (the `log` crate levels the device code uses). -/
inductive Severity where
  | Error
  | Warn
  | Info
  deriving DecidableEq

/-- `MemException` from crate::memory, as the device sources use it. -/
inductive MemException where
  | Unexpected
  | Unimplemented
  | StubRead (sev : Severity) (v : Nat)
  | StubWrite (sev : Severity)
  | ContractViolation (msg : String) (sev : Severity) (stub_val : Option Nat)
  | FatalError (msg : String)
  deriving DecidableEq

/-- `Probe` from crate::devices. -/
inductive Probe where
  | Register (name : String)
  | Unmapped
  deriving DecidableEq

/-- `bit_field` crate: `val.get_bit n`. -/
def getBit (val n : Nat) : Bool := Nat.testBit val n

/-- `bit_field` crate: `val.get_bits (lo..=hi)` (bits lo through hi inclusive). -/
def getBits (val lo hi : Nat) : Nat := (val >>> lo) &&& (2 ^ (hi + 1 - lo) - 1)

/-- `u16::rotate_left` (every call site uses a rotate amount below 16). -/
def rotl16 (v n : Nat) : Nat := ((v <<< (n % 16)) ||| (v >>> (16 - n % 16))) &&& 0xffff

/-- Bitwise complement on u16 (`!x` in the Rust source). -/
def not16 (v : Nat) : Nat := v ^^^ 0xffff

/-- The modulus of `usize` arithmetic (64-bit build). -/
def USIZE : Nat := 2 ^ 64

/-- `usize::wrapping_add`. -/
def wadd (a b : Nat) : Nat := (a + b) % USIZE

/-- `usize::wrapping_sub`. -/
def wsub (a b : Nat) : Nat := (a + (USIZE - b % USIZE)) % USIZE

/-- `EMU_CGRAM_LEN`: the emulated CGRAM word count, 256 * 132 * 2 / 8 / 2. -/
def EMU_CGRAM_LEN : Nat := 256 * 132 * 2 / 8 / 2

/-- `PALETTE`: the renderer's 4-entry grayscale palette, darkest to lightest. -/
def PALETTE (i : Nat) : Nat :=
  if i = 0 then 0x000000
  else if i = 1 then 0x686868
  else if i = 2 then 0xb8b8b9
  else 0xffffff

/-- One pixel of the renderer decode (hd66753.rs lines 93-103): pixel `i`
(the source's loop index, 0 to 7) of the 16-bit CGRAM word `w`, under the
shared invert flag. -/
def decode_pixel (invert : Bool) (w i : Nat) : Nat :=
  let idx := (w >>> (i * 2)) &&& 0b11
  if invert then PALETTE idx else PALETTE (3 - idx)

/-- `InternalRegs`: the LCD controller's command-derived configuration. The
`rev` field stands for the `Arc<AtomicBool>` shared with the renderer. -/
structure InternalRegs where
  cms : Bool
  sgs : Bool
  nl : Nat
  vr : Nat
  ct : Nat
  i_d : Bool
  am : Nat
  lg : Nat
  rt : Nat
  spt : Bool
  gsh : Nat
  gsl : Nat
  rev : Bool
  d : Bool
  wm : Nat
  deriving DecidableEq

/-- `Hd66753`: the LCD controller state (the renderer thread handle is not
state; CGRAM is the shared word store, modelled as an index-to-word map). -/
structure Hd66753 where
  write_byte_latch : Option Nat
  read_byte_latch : Option Nat
  ir : Nat
  ac : Nat
  cgram : Nat → Nat
  ireg : InternalRegs

/-- Pointwise store into the CGRAM map (`cgram[i] = v`). -/
def cgramUpdate (f : Nat → Nat) (i v : Nat) : Nat → Nat :=
  fun j => if j = i then v else f j

/-- `Hd66753::new_hle`: the freshly constructed controller state. -/
def new_hle : Hd66753 :=
  { write_byte_latch := none
    read_byte_latch := none
    ir := 0
    ac := 0
    cgram := fun _ => 0
    ireg :=
      { cms := false, sgs := false, nl := 0, vr := 0, ct := 0, i_d := false
        am := 0, lg := 0, rt := 0, spt := false, gsh := 0, gsl := 0
        rev := false, d := false, wm := 0 } }

/-- `Hd66753::handle_data`: dispatch of a latched 16-bit data write on the
current IR (hd66753.rs lines 209-345).  Early `return Err(..)` keeps the
mutations made before it, so each arm threads the state it had built. The
`unreachable!()` arms (`lg`/`am` above two bits, never produced by the
Entry-Mode decode) are modelled by the final catch-all of their if-chains. -/
def handle_data (s : Hd66753) (val : Nat) : Except MemException Unit × Hd66753 :=
  if s.ir = 0x01 then
    (Except.ok (), { s with ireg :=
      { s.ireg with cms := getBit val 9, sgs := getBit val 8, nl := getBits val 0 4 } })
  else if s.ir = 0x02 then (Except.error (.FatalError "unimplemented: LCD command"), s)
  else if s.ir = 0x03 then (Except.error (.FatalError "unimplemented: LCD command"), s)
  else if s.ir = 0x04 then
    (Except.ok (), { s with ireg :=
      { s.ireg with vr := getBits val 8 10, ct := getBits val 0 6 } })
  else if s.ir = 0x05 then
    let s' := { s with ireg :=
      { s.ireg with i_d := getBit val 4, am := getBits val 2 3, lg := getBits val 0 1 } }
    if s'.ireg.am = 0b11 then
      (Except.error (.ContractViolation "0b11 is an invalid LCD EntryMode:AM value"
        .Error none), s')
    else (Except.ok (), s')
  else if s.ir = 0x06 then
    (Except.ok (), { s with ireg := { s.ireg with rt := getBits val 0 2 } })
  else if s.ir = 0x07 then
    (Except.ok (), { s with ireg :=
      { s.ireg with spt := getBit val 8, gsh := getBits val 4 5, gsl := getBits val 2 3,
                    rev := getBit val 1, d := getBit val 0 } })
  else if s.ir = 0x08 then (Except.error (.FatalError "unimplemented: LCD command"), s)
  else if s.ir = 0x09 then (Except.ok (), s)
  else if s.ir = 0x0a then (Except.ok (), s)
  else if s.ir = 0x0b then (Except.error (.FatalError "unimplemented: LCD command"), s)
  else if s.ir = 0x0c then (Except.error (.FatalError "unimplemented: LCD command"), s)
  else if s.ir = 0x0d then (Except.error (.FatalError "unimplemented: LCD command"), s)
  else if s.ir = 0x0e then (Except.error (.FatalError "unimplemented: LCD command"), s)
  else if s.ir = 0x10 then (Except.ok (), { s with ireg := { s.ireg with wm := val } })
  else if s.ir = 0x11 then (Except.ok (), { s with ac := val % 0x1080 })
  else if s.ir = 0x12 then
    let v1 := rotl16 val (s.ireg.rt * 2)
    let old_val := s.cgram s.ac
    let v2 :=
      if s.ireg.lg = 0b00 then v1
      else if s.ireg.lg = 0b01 then old_val ||| v1
      else if s.ireg.lg = 0b10 then old_val &&& v1
      else if s.ireg.lg = 0b11 then old_val ^^^ v1
      else 0
    let v3 := (old_val &&& s.ireg.wm) ||| (v2 &&& not16 s.ireg.wm)
    let s1 := { s with cgram := cgramUpdate s.cgram s.ac v3 }
    if s.ireg.am = 0b00 then
      let ac1 := if s.ireg.i_d then wadd s1.ac 1 else wsub s1.ac 1
      let ac2 := ac1 % 0x1080
      let ac3 :=
        if ac2 &&& 0x1f > 0x14 then
          if s.ireg.i_d then (ac2 &&& (USIZE - 0x20)) + 0x20
          else (ac2 &&& (USIZE - 0x20)) + 0x14
        else ac2
      (Except.ok (), { s1 with ac := ac3 % 0x1080 })
    else if s.ireg.am = 0b01 then
      (Except.error (.FatalError "unimplemented: vertical CGRAM write"), s1)
    else if s.ireg.am = 0b10 then
      (Except.error (.FatalError "unimplemented: two-word vertical CGRAM write"), s1)
    else (Except.error (.FatalError "EntryMode:AM cannot be set to 0b11"), s1)
  else (Except.error (.FatalError "attempted to execute invalid LCD command"), s)

/-- The offset dispatch of a full 16-bit value (hd66753.rs lines 392-406):
exactly the `match offset` of `w32` once the byte latch has produced a 16-bit
value, i.e. the effect of a hypothetical single 16-bit write. -/
def dispatch16 (s : Hd66753) (offset val : Nat) : Except MemException Unit × Hd66753 :=
  if offset = 0x8 then
    let s' := { s with ir := val }
    if s'.ir > 0x12 then
      (Except.error (.ContractViolation "set invalid LCD Command" .Error none), s')
    else (Except.ok (), s')
  else if offset = 0x10 then handle_data s val
  else (Except.error .Unexpected, s)

/-- `<Hd66753 as Memory>::w32` (hd66753.rs lines 381-409): byte-latched write. -/
def w32 (s : Hd66753) (offset val : Nat) : Except MemException Unit × Hd66753 :=
  let val8 := val % 256
  match s.write_byte_latch with
  | none => (Except.ok (), { s with write_byte_latch := some val8 })
  | some hi => dispatch16 { s with write_byte_latch := none } offset ((hi <<< 8) ||| val8)

/-- `<Hd66753 as Memory>::r32` (hd66753.rs lines 366-379): byte-latched read. -/
def r32 (s : Hd66753) (offset : Nat) : Except MemException Nat × Hd66753 :=
  match s.read_byte_latch with
  | some v => (Except.ok v, { s with read_byte_latch := none })
  | none =>
    if offset = 0x0 then
      let v : Nat := 0
      (Except.ok (v >>> 8), { s with read_byte_latch := some (v % 256) })
    else if offset = 0x8 then
      let v := s.ireg.ct
      (Except.ok (v >>> 8), { s with read_byte_latch := some (v % 256) })
    else (Except.error .Unexpected, s)

/-- `<Hd66753 as Device>::probe` (hd66753.rs lines 353-362); it reads no field
of `&self`, which the unused state argument makes plain. -/
def probe (_s : Hd66753) (offset : Nat) : Probe :=
  if offset = 0x0 then Probe.Register "LCD Control"
  else if offset = 0x8 then Probe.Register "LCD Command"
  else if offset = 0x10 then Probe.Register "LCD Data"
  else Probe.Unmapped

/-- The stored word of a CGRAM data write as the spec words it: the incoming
word rotated left by RT*2 bits, combined with the old word at AC by the
LG-selected logical op (replace / OR / AND / XOR), then masked so that bits
set in WM keep the old word's bits and bits clear in WM take the combination. -/
def cgram_write_spec (old input rt lg wm : Nat) : Nat :=
  let rot := rotl16 input (rt * 2)
  let comb :=
    if lg = 0 then rot
    else if lg = 1 then old ||| rot
    else if lg = 2 then old &&& rot
    else old ^^^ rot
  (old &&& wm) ||| (comb &&& not16 wm)

/-! ## Helper lemmas -/

theorem lor_recompose (v : Nat) : ((v >>> 8) <<< 8) ||| (v % 256) = v := by
  have h256 : (256 : Nat) = 2 ^ 8 := by norm_num
  apply Nat.eq_of_testBit_eq
  intro i
  rw [Nat.testBit_lor, Nat.testBit_shiftLeft, h256, Nat.testBit_mod_two_pow,
    Nat.testBit_shiftRight]
  rcases Nat.lt_or_ge i 8 with h | h
  · have h2 : ¬ (i ≥ 8) := by omega
    simp [h, h2]
  · have h1 : 8 + (i - 8) = i := by omega
    have h2 : ¬ i < 8 := by omega
    simp [h, h1, h2]

theorem and_ffff_of_lt {x : Nat} (h : x < 0x10000) : x &&& 0xffff = x := by
  have h16 : (0xffff : Nat) = 2 ^ 16 - 1 := by norm_num
  rw [h16]
  exact Nat.and_pow_two_sub_one_of_lt_two_pow (by omega)

theorem rotl16_lt (v n : Nat) : rotl16 v n < 0x10000 := by
  have : rotl16 v n ≤ 0xffff := Nat.and_le_right
  omega

/-- On a CGRAM data write the whole CGRAM map changes exactly at AC, to the
word the spec's write algorithm describes. -/
theorem handle_data_cgram (s : Hd66753) (val : Nat)
    (hir : s.ir = 0x12) (hlg : s.ireg.lg < 4) :
    ((handle_data s val).2).cgram
      = cgramUpdate s.cgram s.ac
          (cgram_write_spec (s.cgram s.ac) val s.ireg.rt s.ireg.lg s.ireg.wm) := by
  have h0 : s.ireg.lg = 0 ∨ s.ireg.lg = 1 ∨ s.ireg.lg = 2 ∨ s.ireg.lg = 3 := by omega
  unfold handle_data cgram_write_spec
  rcases h0 with h | h | h | h <;>
    simp only [hir, h] <;> norm_num <;> (repeat' split) <;> simp [cgramUpdate]

/-- C1: for every data write while IR = 0x12, the word stored into video RAM
at the current AC is the incoming value rotated left by RT*2 bits, combined
with the old word by the LG-selected logical op (0b00 replace, 0b01 OR,
0b10 AND, 0b11 XOR), masked so that bits set in WM keep the old word's bits;
with LG = 0b00 and WM = 0x0000 the stored word is exactly the rotated input,
and with WM = 0xFFFF the stored word is unchanged for every LG and input. -/
theorem C1_cgram_write_stored_word (s : Hd66753) (val : Nat)
    (hir : s.ir = 0x12) (hlg : s.ireg.lg < 4) :
    ((handle_data s val).2).cgram s.ac
      = cgram_write_spec (s.cgram s.ac) val s.ireg.rt s.ireg.lg s.ireg.wm
    ∧ (s.ireg.lg = 0 → s.ireg.wm = 0 →
        ((handle_data s val).2).cgram s.ac = rotl16 val (s.ireg.rt * 2))
    ∧ (s.ireg.wm = 0xffff → s.cgram s.ac < 0x10000 →
        ((handle_data s val).2).cgram s.ac = s.cgram s.ac) := by
  have hcg := handle_data_cgram s val hir hlg
  have hat : ((handle_data s val).2).cgram s.ac
      = cgram_write_spec (s.cgram s.ac) val s.ireg.rt s.ireg.lg s.ireg.wm := by
    rw [hcg]; simp [cgramUpdate]
  refine ⟨hat, ?_, ?_⟩
  · intro hlg0 hwm0
    rw [hat]
    unfold cgram_write_spec not16
    rw [hlg0, hwm0]
    simp only [if_pos rfl]
    have h1 : rotl16 val (s.ireg.rt * 2) &&& 0xffff = rotl16 val (s.ireg.rt * 2) :=
      and_ffff_of_lt (rotl16_lt _ _)
    simp [Nat.zero_xor, h1]
  · intro hwm hold
    rw [hat]
    unfold cgram_write_spec not16
    rw [hwm]
    simp [Nat.xor_self, Nat.and_zero, Nat.or_zero, and_ffff_of_lt hold]

/-- Witness for C1 at a concrete input: IR = 0x12, RT = 1, LG = 0, WM = 0. -/
def c1State : Hd66753 :=
  { new_hle with ir := 0x12, ireg := { new_hle.ireg with rt := 1 } }

theorem C1_cgram_write_stored_word_witness :
    ((handle_data c1State 0x8001).2).cgram c1State.ac
      = cgram_write_spec (c1State.cgram c1State.ac) 0x8001
          c1State.ireg.rt c1State.ireg.lg c1State.ireg.wm
    ∧ (c1State.ireg.lg = 0 → c1State.ireg.wm = 0 →
        ((handle_data c1State 0x8001).2).cgram c1State.ac
          = rotl16 0x8001 (c1State.ireg.rt * 2))
    ∧ (c1State.ireg.wm = 0xffff → c1State.cgram c1State.ac < 0x10000 →
        ((handle_data c1State 0x8001).2).cgram c1State.ac
          = c1State.cgram c1State.ac) :=
  C1_cgram_write_stored_word c1State 0x8001 rfl (by decide)

/-! ## C2: Address-Counter auto-update and wraparound -/

/-- A controller about to execute CGRAM data writes (IR = 0x12) with the
default Entry Mode: AM = 0b00 and I/D = decrement, AC = 0. -/
def c2State : Hd66753 := { new_hle with ir := 0x12 }

/-- C2: the two-level AC wrap rule evaluated on the code.  Incrementing from
column 0x14 lands at the start of the next row (0x14 → 0x20), decrementing
from column 0x00 lands at column 0x14 of the previous row (0x20 → 0x14), and
incrementing from AC = 0x107f wraps to 0.  But decrementing from AC = 0 lands
at 0xe74, not at 0x1074 (column 0x14 of row 0x1060) as full-range wrapping
modulo 0x1080 requires: `wrapping_sub` wraps at 2^64, and 0x1080 does not
divide 2^64, so the following `% 0x1080` lands mid-screen. -/
theorem C2_ac_wrap_eval :
    ((handle_data { c2State with
        ireg := { c2State.ireg with i_d := true }, ac := 0x14 } 0).2).ac = 0x20
    ∧ ((handle_data { c2State with ac := 0x20 } 0).2).ac = 0x14
    ∧ ((handle_data { c2State with
        ireg := { c2State.ireg with i_d := true }, ac := 0x107f } 0).2).ac = 0
    ∧ ((handle_data c2State 0).2).ac = 0xe74
    ∧ (0xe74 : Nat) ≠ 0x1074 := by
  refine ⟨by decide, by decide, by decide, by decide, by decide⟩

/-! ## C4: ContractViolation state effects -/

/-- A controller with IR = 0x05 (Entry Mode), everything else fresh. -/
def c4State : Hd66753 := { new_hle with ir := 0x05 }

/-- C4 counterexample: the failing Entry-Mode write of 0x1d (AM = 0b11,
I/D bit set, LG = 0b01) returns ContractViolation, yet it flips the I/D
internal register from false to true — an internal register other than the
recorded offending AM value is modified by the failing write. -/
theorem C4_entry_mode_mutates_counterexample :
    (handle_data c4State 0x1d).1
      = Except.error (MemException.ContractViolation
          "0b11 is an invalid LCD EntryMode:AM value" Severity.Error none)
    ∧ ((handle_data c4State 0x1d).2).ireg.i_d = true
    ∧ c4State.ireg.i_d = false
    ∧ ((handle_data c4State 0x1d).2).ireg.lg = 1
    ∧ c4State.ireg.lg = 0 :=
  ⟨rfl, rfl, rfl, rfl, rfl⟩

/-- C4 (amended): writing Command with a value above 0x12 returns
ContractViolation and modifies only IR, which records the offending value;
writing Entry Mode data with AM = 0b11 returns ContractViolation and updates
exactly the Entry-Mode fields I/D, AM (to the offending 0b11) and LG, decoded
from the written value; in both cases AC, video RAM, the byte latches and
every other internal register are unmodified. -/
theorem C4_contract_violation_effects (s : Hd66753) (v : Nat) :
    (v > 0x12 → dispatch16 s 0x8 v
      = (Except.error (MemException.ContractViolation "set invalid LCD Command"
          Severity.Error none), { s with ir := v }))
    ∧ (s.ir = 0x05 → getBits v 2 3 = 0b11 → handle_data s v
      = (Except.error (MemException.ContractViolation
          "0b11 is an invalid LCD EntryMode:AM value" Severity.Error none),
        { s with ireg :=
          { s.ireg with i_d := getBit v 4, am := getBits v 2 3,
                        lg := getBits v 0 1 } })) := by
  constructor
  · intro hv
    simp [dispatch16, hv]
  · intro h7 hm
    simp [handle_data, h7, hm]

/-! ## C6: unimplemented commands are fatal, 0x09/0x0a are no-ops -/

/-- C6: a data write while IR is one of 0x02, 0x03, 0x08, 0x0b, 0x0c, 0x0d,
0x0e returns FatalError and leaves the state unchanged (never success, never a
silent no-op), whereas a data write while IR is 0x09 or 0x0a returns success
and changes no state. -/
theorem C6_unimplemented_and_noop_cmds (s : Hd66753) (v : Nat) :
    ((s.ir = 0x02 ∨ s.ir = 0x03 ∨ s.ir = 0x08 ∨ s.ir = 0x0b ∨ s.ir = 0x0c ∨
      s.ir = 0x0d ∨ s.ir = 0x0e) →
      handle_data s v
        = (Except.error (MemException.FatalError "unimplemented: LCD command"), s))
    ∧ ((s.ir = 0x09 ∨ s.ir = 0x0a) → handle_data s v = (Except.ok (), s)) := by
  constructor
  · rintro (h | h | h | h | h | h | h) <;> simp [handle_data, h]
  · rintro (h | h) <;> simp [handle_data, h]

/-! ## C10: the CGRAM write is not atomic on AM errors -/

/-- C10: a CGRAM data write (IR = 0x12) issued while AM is not 0b00 returns
FatalError, but the rotate/logical-op/mask result has already been stored into
the video-RAM word at AC, while AC itself is left unadvanced. -/
theorem C10_fatal_but_ram_written (s : Hd66753) (v : Nat)
    (hir : s.ir = 0x12) (hlg : s.ireg.lg < 4) (ham : s.ireg.am ≠ 0) :
    (∃ msg, (handle_data s v).1 = Except.error (MemException.FatalError msg))
    ∧ ((handle_data s v).2).cgram
        = cgramUpdate s.cgram s.ac
            (cgram_write_spec (s.cgram s.ac) v s.ireg.rt s.ireg.lg s.ireg.wm)
    ∧ ((handle_data s v).2).ac = s.ac := by
  refine ⟨?_, handle_data_cgram s v hir hlg, ?_⟩ <;>
  · have h1 : s.ireg.am = 1 ∨ s.ireg.am = 2 ∨ (s.ireg.am ≠ 1 ∧ s.ireg.am ≠ 2) := by
      omega
    unfold handle_data
    rcases h1 with h | h | ⟨ha, hb⟩
    · simp [hir, h]
    · simp [hir, h]
    · simp [hir, ham, ha, hb]

/-- A concrete instance for C10: AM = 0b01 (vertical write, unimplemented),
LG = replace, WM = 0, writing 1 to a zeroed CGRAM at AC = 0: the call fails
fatally yet CGRAM word 0 now holds 1 and AC is still 0. -/
def c10State : Hd66753 :=
  { new_hle with ir := 0x12, ireg := { new_hle.ireg with am := 1 } }

theorem C10_fatal_but_ram_written_witness :
    (∃ msg, (handle_data c10State 1).1 = Except.error (MemException.FatalError msg))
    ∧ ((handle_data c10State 1).2).cgram
        = cgramUpdate c10State.cgram c10State.ac
            (cgram_write_spec (c10State.cgram c10State.ac) 1
              c10State.ireg.rt c10State.ireg.lg c10State.ireg.wm)
    ∧ ((handle_data c10State 1).2).ac = c10State.ac :=
  C10_fatal_but_ram_written c10State 1 rfl (by decide) (by decide)

/-! ## C3: byte-latch refinement of a single 16-bit write -/

/-- A state whose write latch is known empty is unchanged by writing the
latch field to `none` again. -/
theorem latch_none_eta (s : Hd66753) (h : s.write_byte_latch = none) :
    { s with write_byte_latch := none } = s := by
  cases s
  simp_all

/-- C3: with no write byte latched, a `w32` carrying the high byte of a
16-bit value v returns success and changes nothing but the latch; the
following `w32` with the low byte then behaves exactly like the dispatch of
the single 16-bit value v to that offset. -/
theorem C3_byte_latch_refines (s : Hd66753) (offset v : Nat)
    (hv : v < 0x10000) (hl : s.write_byte_latch = none) :
    (w32 s offset (v >>> 8)).1 = Except.ok ()
    ∧ (w32 s offset (v >>> 8)).2 = { s with write_byte_latch := some (v >>> 8) }
    ∧ w32 ((w32 s offset (v >>> 8)).2) offset (v % 256) = dispatch16 s offset v := by
  have hhi : v >>> 8 < 256 := by
    rw [Nat.shiftRight_eq_div_pow]
    omega
  have hhi' : (v >>> 8) % 256 = v >>> 8 := Nat.mod_eq_of_lt hhi
  have h1 : w32 s offset (v >>> 8)
      = (Except.ok (), { s with write_byte_latch := some (v >>> 8) }) := by
    unfold w32
    rw [hl]
    simp [hhi']
  refine ⟨by rw [h1], by rw [h1], ?_⟩
  rw [h1]
  show dispatch16 { s with write_byte_latch := none } offset
      (((v >>> 8) <<< 8) ||| (v % 256 % 256)) = dispatch16 s offset v
  rw [Nat.mod_mod_of_dvd v (dvd_refl 256), latch_none_eta s hl, lor_recompose]

theorem C3_byte_latch_refines_witness :
    (w32 new_hle 0x8 (0x0112 >>> 8)).1 = Except.ok ()
    ∧ (w32 new_hle 0x8 (0x0112 >>> 8)).2
        = { new_hle with write_byte_latch := some (0x0112 >>> 8) }
    ∧ w32 ((w32 new_hle 0x8 (0x0112 >>> 8)).2) 0x8 (0x0112 % 256)
        = dispatch16 new_hle 0x8 0x0112 :=
  C3_byte_latch_refines new_hle 0x8 0x0112 (by decide) rfl

/-! ## C5: renderer palette polarity -/

/-- C5 counterexample: an all-zero CGRAM word with invert off decodes to
0xffffff — the lightest palette entry, not the darkest — and an all-1s-pixel
word with invert on also decodes to the lightest entry, not the darkest. -/
theorem C5_palette_counterexample :
    decode_pixel false 0 0 = 0xffffff
    ∧ decode_pixel true 0xffff 0 = 0xffffff
    ∧ PALETTE 0 = 0x000000
    ∧ PALETTE 3 = 0xffffff
    ∧ (0xffffff : Nat) ≠ 0x000000 := by
  refine ⟨by decide, by decide, by decide, by decide, by decide⟩

/-- C5 (amended): every pixel of an all-zero CGRAM word decodes to the
lightest palette entry when invert is off and the darkest when invert is on;
a Display Control data write (IR = 0x07) with bit 1 set makes the invert flag
true, and a pixel of an all-1s-pixel word under invert decodes to the
lightest palette color. -/
theorem C5_palette_decode (s : Hd66753) (v i : Nat) (hi : i < 8) :
    decode_pixel false 0 i = PALETTE 3
    ∧ decode_pixel true 0 i = PALETTE 0
    ∧ (s.ir = 0x07 → getBit v 1 = true → ((handle_data s v).2).ireg.rev = true)
    ∧ decode_pixel true 0xffff i = PALETTE 3 := by
  refine ⟨by simp [decode_pixel], by simp [decode_pixel], ?_, ?_⟩
  · intro h7 hb
    simp [handle_data, h7, hb]
  · interval_cases i <;> decide

def c5State : Hd66753 := { new_hle with ir := 0x07 }

theorem C5_palette_decode_witness :
    decode_pixel false 0 0 = PALETTE 3
    ∧ decode_pixel true 0 0 = PALETTE 0
    ∧ (c5State.ir = 0x07 → getBit 2 1 = true →
        ((handle_data c5State 2).2).ireg.rev = true)
    ∧ decode_pixel true 0xffff 0 = PALETTE 3 :=
  C5_palette_decode c5State 2 0 (by decide)

/-! ## C7: AC stays within the 0x1080-word store -/

/-- Every data dispatch keeps AC below 0x1080: RAM Address Set reduces the
written value modulo 0x1080 and the CGRAM-write auto-update ends with a
modulo-0x1080 reduction. -/
theorem handle_data_ac_lt (s : Hd66753) (v : Nat) (h : s.ac < 0x1080) :
    ((handle_data s v).2).ac < 0x1080 := by
  by_cases e1 : s.ir = 0x01
  · simp [handle_data, *]
  by_cases e2 : s.ir = 0x02
  · simp [handle_data, *]
  by_cases e3 : s.ir = 0x03
  · simp [handle_data, *]
  by_cases e4 : s.ir = 0x04
  · simp [handle_data, *]
  by_cases e5 : s.ir = 0x05
  · by_cases a3 : getBits v 2 3 = 3
    · simp [handle_data, *]
    · simp [handle_data, *]
  by_cases e6 : s.ir = 0x06
  · simp [handle_data, *]
  by_cases e7 : s.ir = 0x07
  · simp [handle_data, *]
  by_cases e8 : s.ir = 0x08
  · simp [handle_data, *]
  by_cases e9 : s.ir = 0x09
  · simp [handle_data, *]
  by_cases e10 : s.ir = 0x0a
  · simp [handle_data, *]
  by_cases e11 : s.ir = 0x0b
  · simp [handle_data, *]
  by_cases e12 : s.ir = 0x0c
  · simp [handle_data, *]
  by_cases e13 : s.ir = 0x0d
  · simp [handle_data, *]
  by_cases e14 : s.ir = 0x0e
  · simp [handle_data, *]
  by_cases e16 : s.ir = 0x10
  · simp [handle_data, *]
  by_cases e17 : s.ir = 0x11
  · simp [handle_data, *]
    omega
  by_cases e18 : s.ir = 0x12
  · by_cases a0 : s.ireg.am = 0
    · simp [handle_data, *]
      omega
    · by_cases a1 : s.ireg.am = 1
      · simp [handle_data, *]
      · by_cases a2 : s.ireg.am = 2
        · simp [handle_data, *]
        · simp [handle_data, *]
  · simp [handle_data, *]

/-- The byte-latched write keeps AC below 0x1080. -/
theorem w32_ac_lt (s : Hd66753) (offset val : Nat) (h : s.ac < 0x1080) :
    ((w32 s offset val).2).ac < 0x1080 := by
  cases hl : s.write_byte_latch with
  | none => simp [w32, hl, h]
  | some hi =>
    by_cases h8 : offset = 0x8
    · by_cases hgt : (hi <<< 8) ||| val % 256 > 0x12
      · simp [w32, dispatch16, hl, h8, hgt, h]
      · simp [w32, dispatch16, hl, h8, hgt, h]
    · by_cases h16 : offset = 0x10
      · have hh := handle_data_ac_lt { s with write_byte_latch := none }
          ((hi <<< 8) ||| val % 256) h
        simp only [w32, hl, h8, h16, dispatch16]
        simpa using hh
      · simp [w32, dispatch16, hl, h8, h16, h]

/-- The byte-latched read never changes AC. -/
theorem r32_ac_lt (s : Hd66753) (offset : Nat) (h : s.ac < 0x1080) :
    ((r32 s offset).2).ac < 0x1080 := by
  cases hl : s.read_byte_latch with
  | some v0 => simp [r32, hl, h]
  | none =>
    by_cases h0 : offset = 0x0
    · simp [r32, hl, h0, h]
    · by_cases h8 : offset = 0x8
      · simp [r32, hl, h0, h8, h]
      · simp [r32, hl, h0, h8, h]

/-- C7: from any state with AC in [0, 0x1080), both `w32` and `r32` (total
functions of the state by construction — no panic is modelled anywhere)
leave AC in [0, 0x1080), and the fresh controller starts there, so the CGRAM
indexing at AC performed by command 0x12 always hits the 0x1080-word store
(EMU_CGRAM_LEN = 0x1080). -/
theorem C7_ac_stays_in_range (s : Hd66753) (offset val : Nat) (h : s.ac < 0x1080) :
    ((w32 s offset val).2).ac < 0x1080
    ∧ ((r32 s offset).2).ac < 0x1080
    ∧ new_hle.ac < 0x1080
    ∧ 0x1080 = EMU_CGRAM_LEN :=
  ⟨w32_ac_lt s offset val h, r32_ac_lt s offset h, by decide, by decide⟩

theorem C7_ac_stays_in_range_witness :
    ((w32 new_hle 0x10 0).2).ac < 0x1080
    ∧ ((r32 new_hle 0x10).2).ac < 0x1080
    ∧ new_hle.ac < 0x1080
    ∧ 0x1080 = EMU_CGRAM_LEN :=
  C7_ac_stays_in_range new_hle 0x10 0 (by decide)

/-! ## C8: probe classifies offsets exactly as r32/w32 accept them -/

/-- A controller whose IR selects the 0x09 no-op, used to show the Data
offset accepts writes. -/
def c8NoopState : Hd66753 := { new_hle with ir := 0x09 }

/-- C8: `probe` reads no state (same answer in every state, no mutation by
construction), and it answers Unmapped exactly for the offsets that both the
read dispatch (`r32` with an empty read latch) and the 16-bit write dispatch
reject as Unexpected: 0x0 and 0x8 are accepted by `r32`, 0x10 is accepted by
the write dispatch, every other offset is rejected by both. -/
theorem C8_probe_consistency (s t : Hd66753) (offset : Nat) :
    probe s offset = probe t offset
    ∧ (probe s offset = Probe.Unmapped ↔
        ((∀ u : Hd66753, u.read_byte_latch = none →
            (r32 u offset).1 = Except.error MemException.Unexpected)
         ∧ (∀ (u : Hd66753) (v : Nat),
            (dispatch16 u offset v).1 = Except.error MemException.Unexpected))) := by
  refine ⟨rfl, ?_⟩
  by_cases h0 : offset = 0x0
  · subst h0
    constructor
    · intro hp
      exact absurd hp (by simp [probe])
    · rintro ⟨hr, -⟩
      have h := hr new_hle rfl
      simp [r32, new_hle] at h
  · by_cases h8 : offset = 0x8
    · subst h8
      constructor
      · intro hp
        exact absurd hp (by simp [probe])
      · rintro ⟨hr, -⟩
        have h := hr new_hle rfl
        simp [r32, new_hle] at h
    · by_cases h16 : offset = 0x10
      · subst h16
        constructor
        · intro hp
          exact absurd hp (by simp [probe])
        · rintro ⟨-, hw⟩
          have h := hw c8NoopState 0
          simp [dispatch16, handle_data, c8NoopState, new_hle] at h
      · constructor
        · intro _
          constructor
          · intro u hu
            unfold r32
            rw [hu]
            simp [h0, h8]
          · intro u v
            simp [dispatch16, h8, h16]
        · intro _
          simp [probe, h0, h8, h16]

/-! ## The PP5020 EIDE storage-controller shim (eide.rs) -/

/-- `IdeReg` from crate::devices::generic::ide: the register roles the EIDE
shim forwards to the IDE sub-device. -/
inductive IdeReg where
  | Data
  | Error
  | Features
  | SectorCount
  | SectorNo
  | CylinderLo
  | CylinderHi
  | DeviceHead
  | Status
  | Command
  | AltStatus
  | DevControl
  | DataLatch
  deriving DecidableEq

/-- Modelled from the spec: `IdeController` (crate::devices::generic::ide) is
not among the provided sources.  Spec §4.5 and §6 describe only what the shim
needs of it: it accepts 8/16-bit sub-accesses keyed by `IdeReg`, and it holds
per-channel interrupt state that bits 4/5 of offset 0x028 expose and clear; it
is therefore modelled as its two IRQ lines. -/
structure IdeController where
  irq0 : Bool
  irq1 : Bool
  deriving DecidableEq

/-- `IdeDriveCfg` from eide.rs: per-drive timing/config registers. -/
structure IdeDriveCfg where
  primary_timing_0 : Nat
  primary_timing_1 : Nat
  secondary_timing_0 : Nat
  secondary_timing_1 : Nat
  config : Nat
  controller_status : Nat
  deriving DecidableEq

/-- `EIDECon` from eide.rs. -/
structure EIDECon where
  ide0_cfg : IdeDriveCfg
  ide1_cfg : IdeDriveCfg
  ide : IdeController
  dma_control : Nat
  dma_length : Nat
  dma_addr : Nat
  unknown : Nat
  deriving DecidableEq

/-- `EIDECon::new` (the IRQ sender aside): all fields zeroed. -/
def eide_new : EIDECon :=
  { ide0_cfg := ⟨0, 0, 0, 0, 0, 0⟩
    ide1_cfg := ⟨0, 0, 0, 0, 0, 0⟩
    ide := ⟨false, false⟩
    dma_control := 0, dma_length := 0, dma_addr := 0, unknown := 0 }

/-- How one EIDE register access resolves, read directly off the match arms
of `<EIDECon as Memory>::r32`/`w32`: a modelled register succeeds with a
value (read) or unit (write); a stub register returns StubRead/StubWrite at
the severity the arm names; 0x02c returns Unimplemented; the command-register
block forwards to the IDE sub-device; everything else is Unexpected. -/
inductive EideAccess where
  | ok_val (v : Nat)
  | ok_unit
  | stub_read (sev : Severity) (v : Nat)
  | stub_write (sev : Severity)
  | unimpl
  | ide_fwd (reg : IdeReg)
  | unexpected
  deriving DecidableEq

/-- Whether an access resolved as a StubRead/StubWrite. -/
def EideAccess.is_stub : EideAccess → Bool
  | .stub_read _ _ => true
  | .stub_write _ => true
  | _ => false

/-- `<EIDECon as Memory>::r32` (eide.rs lines 91-127). -/
def eide_r32 (s : EIDECon) (offset : Nat) : EideAccess :=
  if offset = 0x000 then .ok_val s.ide0_cfg.primary_timing_0
  else if offset = 0x004 then .ok_val s.ide0_cfg.primary_timing_1
  else if offset = 0x008 then .ok_val s.ide0_cfg.secondary_timing_0
  else if offset = 0x00c then .ok_val s.ide0_cfg.secondary_timing_1
  else if offset = 0x010 then .ok_val s.ide1_cfg.primary_timing_0
  else if offset = 0x014 then .ok_val s.ide1_cfg.primary_timing_1
  else if offset = 0x018 then .ok_val s.ide1_cfg.secondary_timing_0
  else if offset = 0x01c then .ok_val s.ide1_cfg.secondary_timing_1
  else if offset = 0x028 then
    .stub_read .Info ((if s.ide.irq0 then 0x10 else 0) ||| (if s.ide.irq1 then 0x20 else 0))
  else if offset = 0x02c then .unimpl
  else if offset = 0x1e0 then .ide_fwd .Data
  else if offset = 0x1e4 then .ide_fwd .Error
  else if offset = 0x1e8 then .ide_fwd .SectorCount
  else if offset = 0x1ec then .ide_fwd .SectorNo
  else if offset = 0x1f0 then .ide_fwd .CylinderLo
  else if offset = 0x1f4 then .ide_fwd .CylinderHi
  else if offset = 0x1f8 then .ide_fwd .DeviceHead
  else if offset = 0x1fc then .ide_fwd .Status
  else if offset = 0x3f8 then .ide_fwd .AltStatus
  else if offset = 0x3fc then .ide_fwd .DataLatch
  else if offset = 0x400 then .stub_read .Error s.dma_control
  else if offset = 0x408 then .stub_read .Error s.dma_length
  else if offset = 0x40c then .stub_read .Error s.dma_addr
  else if offset = 0x410 then .stub_read .Error s.unknown
  else .unexpected

/-- `<EIDECon as Memory>::w32` (eide.rs lines 129-169), with the state it
leaves behind (`clear_irq` on the spec-modelled sub-device drops the line). -/
def eide_w32 (s : EIDECon) (offset val : Nat) : EideAccess × EIDECon :=
  if offset = 0x000 then (.ok_unit, { s with ide0_cfg := { s.ide0_cfg with primary_timing_0 := val } })
  else if offset = 0x004 then (.ok_unit, { s with ide0_cfg := { s.ide0_cfg with primary_timing_1 := val } })
  else if offset = 0x008 then (.ok_unit, { s with ide0_cfg := { s.ide0_cfg with secondary_timing_0 := val } })
  else if offset = 0x00c then (.ok_unit, { s with ide0_cfg := { s.ide0_cfg with secondary_timing_1 := val } })
  else if offset = 0x010 then (.ok_unit, { s with ide1_cfg := { s.ide1_cfg with primary_timing_0 := val } })
  else if offset = 0x014 then (.ok_unit, { s with ide1_cfg := { s.ide1_cfg with primary_timing_1 := val } })
  else if offset = 0x018 then (.ok_unit, { s with ide1_cfg := { s.ide1_cfg with secondary_timing_0 := val } })
  else if offset = 0x01c then (.ok_unit, { s with ide1_cfg := { s.ide1_cfg with secondary_timing_1 := val } })
  else if offset = 0x028 then
    let s1 := if getBit val 4 then { s with ide := { s.ide with irq0 := false } } else s
    let s2 := if getBit val 5 then { s1 with ide := { s1.ide with irq1 := false } } else s1
    (.stub_write .Info, s2)
  else if offset = 0x02c then (.unimpl, s)
  else if offset = 0x1e0 then (.ide_fwd .Data, s)
  else if offset = 0x1e4 then (.ide_fwd .Features, s)
  else if offset = 0x1e8 then (.ide_fwd .SectorCount, s)
  else if offset = 0x1ec then (.ide_fwd .SectorNo, s)
  else if offset = 0x1f0 then (.ide_fwd .CylinderLo, s)
  else if offset = 0x1f4 then (.ide_fwd .CylinderHi, s)
  else if offset = 0x1f8 then (.ide_fwd .DeviceHead, s)
  else if offset = 0x1fc then (.ide_fwd .Command, s)
  else if offset = 0x3f8 then (.ide_fwd .DevControl, s)
  else if offset = 0x3fc then (.ide_fwd .DataLatch, s)
  else if offset = 0x400 then (.stub_write .Error, { s with dma_control := val })
  else if offset = 0x408 then (.stub_write .Error, { s with dma_length := val })
  else if offset = 0x40c then (.stub_write .Error, { s with dma_addr := val })
  else if offset = 0x410 then (.stub_write .Error, { s with unknown := val })
  else (.unexpected, s)

/-- The register offsets `<EIDECon as Device>::probe` names (eide.rs lines
53-87): the documented register map. -/
def eide_reg_offsets : List Nat :=
  [0x000, 0x004, 0x008, 0x00c, 0x010, 0x014, 0x018, 0x01c, 0x028, 0x02c,
   0x1e0, 0x1e4, 0x1e8, 0x1ec, 0x1f0, 0x1f4, 0x1f8, 0x1fc,
   0x3f8, 0x3fc, 0x400, 0x408, 0x40c, 0x410]

/-- C9 counterexample: offset 0x02c ("IDE1 Cfg", in the documented map)
returns Unimplemented on read and on write — not StubRead/StubWrite as the
claim states (though indeed not Unexpected either). -/
theorem C9_seam_0x02c_counterexample :
    eide_r32 eide_new 0x02c = EideAccess.unimpl
    ∧ (eide_w32 eide_new 0x02c 0).1 = EideAccess.unimpl
    ∧ (eide_r32 eide_new 0x02c).is_stub = false
    ∧ ((eide_w32 eide_new 0x02c 0).1).is_stub = false := by
  refine ⟨by decide, by decide, by decide, by decide⟩

/-- C9 (amended): for every offset of the documented (probe-listed) register
map, r32 and w32 never resolve as Unexpected: the timing registers succeed,
the command-register block and 0x3f8/0x3fc forward to the IDE sub-device, the
unmodeled registers 0x028 and 0x400/0x408/0x40c/0x410 resolve as
StubRead/StubWrite, and 0x02c resolves as Unimplemented (distinct from both
Unexpected and the stubs). -/
theorem C9_documented_offsets_not_unexpected (s : EIDECon) (offset val : Nat)
    (h : offset ∈ eide_reg_offsets) :
    eide_r32 s offset ≠ EideAccess.unexpected
    ∧ (eide_w32 s offset val).1 ≠ EideAccess.unexpected
    ∧ ((offset = 0x028 ∨ offset = 0x400 ∨ offset = 0x408 ∨ offset = 0x40c ∨
        offset = 0x410) →
       (eide_r32 s offset).is_stub = true ∧ ((eide_w32 s offset val).1).is_stub = true)
    ∧ (offset = 0x02c →
       eide_r32 s offset = EideAccess.unimpl
       ∧ (eide_w32 s offset val).1 = EideAccess.unimpl) := by
  simp only [eide_reg_offsets, List.mem_cons, List.not_mem_nil, or_false] at h
  rcases h with h | h | h | h | h | h | h | h | h | h | h | h |
    h | h | h | h | h | h | h | h | h | h | h | h <;>
    subst h <;>
    refine ⟨by simp [eide_r32], by simp [eide_w32],
      by intro hc; simp_all [eide_r32, eide_w32, EideAccess.is_stub], ?_⟩ <;>
    · intro hc
      simp_all [eide_r32, eide_w32]

theorem C9_documented_offsets_not_unexpected_witness :
    eide_r32 eide_new 0x400 ≠ EideAccess.unexpected
    ∧ (eide_w32 eide_new 0x400 7).1 ≠ EideAccess.unexpected
    ∧ ((0x400 = 0x028 ∨ (0x400 : Nat) = 0x400 ∨ 0x400 = 0x408 ∨ 0x400 = 0x40c ∨
        0x400 = 0x410) →
       (eide_r32 eide_new 0x400).is_stub = true
       ∧ ((eide_w32 eide_new 0x400 7).1).is_stub = true)
    ∧ ((0x400 : Nat) = 0x02c →
       eide_r32 eide_new 0x400 = EideAccess.unimpl
       ∧ (eide_w32 eide_new 0x400 7).1 = EideAccess.unimpl) :=
  C9_documented_offsets_not_unexpected eide_new 0x400 7 (by decide)

end Clicky
